import Mathlib

/-!
Verification development for the rust-multi-client repository
(src/src/main.rs): a fan-out/fan-in pipeline of sampling workers feeding
an aggregator, plus a replay reporter and a CLI mode dispatcher.

Modelling conventions:
* Rust f64 values are embedded as exact rationals (no rounding noise);
  display formatting to 4 decimals is presentation only and is not part
  of the value-level model.
* Effects (websocket stream, channel, files) are made explicit: the
  stream a worker sees during its observation window is a finite list of
  stream items; the aggregator's channel receives are a finite list of
  per-iteration outcomes; the file system of the replay reporter is a
  function from file name to optional line list.
* A Rust panic (the unwrap in process_message) is modelled by a distinct
  outcome constructor, and propagates through the observation loop as
  the absence of a result.
-/

namespace MultiClient

/-- Prices and means, modelled as exact rationals standing in for f64. -/
abbrev F := ℚ

/-- Embedding of calculate_average: none for an empty vector, otherwise
the sum of the entries divided by their count. -/
def calculate_average (prices : List F) : Option F :=
  if prices = [] then none
  else some (prices.sum / (prices.length : F))

/-- Abstract JSON values, standing in for serde_json::Value. -/
inductive Json where
  | null : Json
  | bool (b : Bool) : Json
  | num (q : F) : Json
  | str (s : String) : Json
  | arr (elems : List Json) : Json
  | obj (fields : List (String × Json)) : Json

/-- Embedding of serde_json::Value::get on a key: a lookup in an object,
none on any non-object value. -/
def Json.get (j : Json) (key : String) : Option Json :=
  match j with
  | .obj fields => (fields.find? (fun kv => kv.fst == key)).map Prod.snd
  | _ => none

/-- Embedding of serde_json::Value::as_str: some for a string value,
none otherwise. -/
def Json.asStr : Json → Option String
  | .str s => some s
  | _ => none

/-- Decode failure cases of process_message: the input text is not valid
JSON, the price field is absent, or the price string does not parse. -/
inductive DecodeError where
  | jsonSyntax : DecodeError
  | missingField : DecodeError
  | parseError : DecodeError
deriving DecidableEq

/-- Result of one call to process_message: a price, an error, or a Rust
panic (the unwrap of as_str on a non-string field). -/
inductive DecodeOutcome where
  | ok (price : F) : DecodeOutcome
  | err (e : DecodeError) : DecodeOutcome
  | panicked : DecodeOutcome
deriving DecidableEq

/-- Embedding of process_message. The raw text payload is abstracted to
its JSON parse result (none when serde_json::from_str fails); pf models
str::parse to f64 (none when parsing fails). The code does
json.get of the p key, then as_str().unwrap() — the unwrap panics when
the field is present but not a string — then parses the string. -/
def process_message (pf : String → Option F) (raw : Option Json) : DecodeOutcome :=
  match raw with
  | none => .err .jsonSyntax
  | some json =>
    match json.get "p" with
    | none => .err .missingField
    | some price =>
      match price.asStr with
      | none => .panicked
      | some s =>
        match pf s with
        | some v => .ok v
        | none => .err .parseError

/-- One item yielded by ws_stream.next() inside the observation loop. -/
inductive StreamItem where
  | textFrame (raw : Option Json) : StreamItem
  | otherFrame : StreamItem
  | streamError : StreamItem
  | streamClosed : StreamItem

/-- Embedding of the worker's observation loop over the finite list of
stream items delivered during the observation window, carrying the
accumulated price vector. A text frame that decodes is appended; a text
frame with a decode error is skipped; a panic in decode kills the task
(none); any non-text item (other frame kind, stream error, stream end)
falls to the else branch of the if-let and breaks the loop. -/
def obsLoopAux (pf : String → Option F) (acc : List F) :
    List StreamItem → Option (List F)
  | [] => some acc
  | StreamItem.textFrame raw :: rest =>
    match process_message pf raw with
    | DecodeOutcome.ok price => obsLoopAux pf (acc ++ [price]) rest
    | DecodeOutcome.err _ => obsLoopAux pf acc rest
    | DecodeOutcome.panicked => none
  | StreamItem.otherFrame :: _ => some acc
  | StreamItem.streamError :: _ => some acc
  | StreamItem.streamClosed :: _ => some acc

/-- The observation loop started with an empty price vector. -/
def obsLoop (pf : String → Option F) (items : List StreamItem) : Option (List F) :=
  obsLoopAux pf [] items

/-- Observable outcome of the tail of client_process after the loop:
the message sent on the channel, the save attempt (file name, prices,
unrounded average), whether a save failure was logged to stderr, and
whether the no-data condition was reported. -/
structure ClientOutcome where
  sent : Option (Nat × F)
  saveAttempted : Option (String × List F × F)
  saveErrorLogged : Bool
  noData : Bool
deriving DecidableEq

/-- File name used by save_client_data for a given worker id. -/
def clientFileName (id : Nat) : String :=
  "client_" ++ toString id ++ "_data.txt"

/-- Embedding of the tail of client_process: if calculate_average yields
an average, print it, send the pair on the channel, and attempt
save_client_data, logging (not propagating) a save failure; otherwise
report that no data points were collected, sending and saving nothing.
saveOk tells whether the file write succeeds. -/
def clientFinalize (id : Nat) (prices : List F) (saveOk : Bool) : ClientOutcome :=
  match calculate_average prices with
  | some avg =>
    { sent := some (id, avg)
      saveAttempted := some (clientFileName id, prices, avg)
      saveErrorLogged := !saveOk
      noData := false }
  | none =>
    { sent := none
      saveAttempted := none
      saveErrorLogged := false
      noData := true }

/-- Embedding of the aggregator's receive loop body over the sequence of
per-iteration rx.recv() outcomes (none models a recv that yields nothing
on a closed channel — the iteration records no mean and the loop goes
on). The averages vector collects the second components in arrival
order. -/
def collectAverages : List (Option (Nat × F)) → List F
  | [] => []
  | some (_, avg) :: rest => avg :: collectAverages rest
  | none :: rest => collectAverages rest

/-- Observable outcome of the aggregator after its receive loop. -/
structure AggOutcome where
  persisted : Option (List F × F)
  noAveragesReported : Bool
deriving DecidableEq

/-- Embedding of aggregator_process given the sequence of recv outcomes
of its expected_count loop iterations: collect the averages in arrival
order, then either persist them with their mean via save_global_data or
report that no averages were received. -/
def aggregator_process (recvs : List (Option (Nat × F))) : AggOutcome :=
  match calculate_average (collectAverages recvs) with
  | some globalAvg =>
    { persisted := some (collectAverages recvs, globalAvg)
      noAveragesReported := false }
  | none => { persisted := none, noAveragesReported := true }

/-- One item produced by BufReader::lines: a line read, or a line-level
read failure. -/
inductive LineItem where
  | line (s : String) : LineItem
  | lineFailure : LineItem
deriving DecidableEq

/-- Embedding of the inner line loop of read_mode: print lines until a
line failure, which stops printing and requests the outer break. Returns
the printed lines and whether the file loop must be broken. -/
def readLines : List LineItem → List String × Bool
  | [] => ([], false)
  | LineItem.line s :: rest =>
    let r := readLines rest
    (s :: r.1, r.2)
  | LineItem.lineFailure :: _ => ([], true)

/-- Embedding of the file loop of read_mode over a file system fs (none
models a file that cannot be opened). A failed open breaks the loop at
once; a successful open prints the file header and its lines, breaking
the loop on a mid-file line failure, otherwise continuing with the
remaining files. Returns all printed output and whether the loop was
broken early. -/
def readFiles (fs : String → Option (List LineItem)) :
    List String → List String × Bool
  | [] => ([], false)
  | path :: rest =>
    match fs path with
    | none => ([], true)
    | some items =>
      if (readLines items).2 then
        (("Reading file: " ++ path) :: (readLines items).1, true)
      else
        (("Reading file: " ++ path) :: ((readLines items).1 ++ (readFiles fs rest).1),
          (readFiles fs rest).2)

/-- The file list read_mode builds: client files for ids 1..numClients
in ascending order, then the global file. -/
def fileList (numClients : Nat) : List String :=
  ((List.range numClients).map (fun i => clientFileName (i + 1)))
    ++ ["global_data.txt"]

/-- Embedding of read_mode: run the file loop over the file list and
return the printed output, the early-stop flag, and the io::Result the
function returns to its caller — which the source ends with Ok of unit
on every path. -/
def read_mode (fs : String → Option (List LineItem)) (numClients : Nat) :
    (List String × Bool) × Except String Unit :=
  (readFiles fs (fileList numClients), Except.ok ())

/-- The three arms of the mode match in main. -/
inductive MainAction where
  | pipeline : MainAction
  | replay : MainAction
  | usage : MainAction
deriving DecidableEq

/-- Observable outcome of main's mode dispatch: which arm ran, how many
tasks were spawned, whether the channel was created, whether any file is
touched, whether the usage error went to stderr, and the process exit
code. -/
structure MainOutcome where
  action : MainAction
  tasksSpawned : Nat
  channelCreated : Bool
  touchesFiles : Bool
  usageErrorPrinted : Bool
  exitCode : Nat
deriving DecidableEq

/-- Embedding of the match on mode in main: cache spawns the aggregator
plus numClients client tasks over a fresh channel; read runs read_mode
and panics (exit 101) if it returns an error, which it never does;
any other mode prints the usage error to stderr and does nothing else,
and main returns normally with exit code 0. -/
def dispatchMode (fs : String → Option (List LineItem)) (mode : String)
    (numClients : Nat) : MainOutcome :=
  if mode = "cache" then
    { action := .pipeline
      tasksSpawned := numClients + 1
      channelCreated := true
      touchesFiles := true
      usageErrorPrinted := false
      exitCode := 0 }
  else if mode = "read" then
    { action := .replay
      tasksSpawned := 0
      channelCreated := false
      touchesFiles := true
      usageErrorPrinted := false
      exitCode :=
        match (read_mode fs numClients).2 with
        | Except.ok _ => 0
        | Except.error _ => 101 }
  else
    { action := .usage
      tasksSpawned := 0
      channelCreated := false
      touchesFiles := false
      usageErrorPrinted := true
      exitCode := 0 }

/-- Helper: when every receive yields a result, the collected averages
are exactly the second components in arrival order. -/
theorem collectAverages_map_some (rs : List (Nat × F)) :
    collectAverages (rs.map Option.some) = rs.map Prod.snd := by
  induction rs with
  | nil => rfl
  | cons hd tl ih => cases hd; simp [collectAverages, ih]

/-- Helper: calculate_average on a non-empty list is the sum over the
length. -/
theorem calculate_average_of_ne_nil (l : List F) (h : l ≠ []) :
    calculate_average l = some (l.sum / (l.length : F)) := by
  unfold calculate_average
  rw [if_neg h]

/-- Helper: the aggregator outcome when at least one average was
collected. -/
theorem aggregator_process_of_ne_nil (recvs : List (Option (Nat × F)))
    (h : collectAverages recvs ≠ []) :
    aggregator_process recvs
      = { persisted := some (collectAverages recvs,
            (collectAverages recvs).sum / ((collectAverages recvs).length : F)),
          noAveragesReported := false } := by
  unfold aggregator_process
  rw [calculate_average_of_ne_nil _ h]

/-- Helper: the aggregator outcome when no average was collected. -/
theorem aggregator_process_of_nil (recvs : List (Option (Nat × F)))
    (h : collectAverages recvs = []) :
    aggregator_process recvs
      = { persisted := none, noAveragesReported := true } := by
  unfold aggregator_process
  rw [h]
  rfl

/-- C1: for every non-empty observation list, the local mean the worker
reports and sends on the channel is the sum of exactly those
observations divided by their count, with no rounding applied to the
value that is sent or stored (floats idealized as rationals). -/
theorem c1_local_mean (id : Nat) (prices : List F) (saveOk : Bool)
    (h : prices ≠ []) :
    (clientFinalize id prices saveOk).sent
      = some (id, prices.sum / (prices.length : F)) := by
  match prices, h with
  | p :: tl, _ => simp [clientFinalize, calculate_average]

/-- Witness for C1 at a concrete input: three observations 1, 2, 3 give
the sent local mean 2. -/
theorem c1_local_mean_witness :
    (clientFinalize 1 [1, 2, 3] true).sent = some (1, 2) := by
  have h := c1_local_mean 1 [1, 2, 3] true (by simp)
  rw [h]
  norm_num

/-- C2: after collecting its expected results, the aggregator persists
the arithmetic mean of the per-worker local means (not of pooled raw
observations); in particular the local means 60000, 60010, 59990,
60020, 59980 give the global mean exactly 60000. -/
theorem c2_global_mean_of_means :
    (∀ rs : List (Nat × F), rs ≠ [] →
      (aggregator_process (rs.map Option.some)).persisted
        = some (rs.map Prod.snd, (rs.map Prod.snd).sum / (rs.length : F)))
    ∧ (aggregator_process
        [some (1, 60000), some (2, 60010), some (3, 59990),
         some (4, 60020), some (5, 59980)]).persisted
        = some ([60000, 60010, 59990, 60020, 59980], 60000) := by
  constructor
  · intro rs h
    have hne : collectAverages (rs.map Option.some) ≠ [] := by
      rw [collectAverages_map_some]
      simpa using h
    rw [aggregator_process_of_ne_nil _ hne, collectAverages_map_some]
    simp
  · rw [aggregator_process_of_ne_nil _ (by simp [collectAverages])]
    norm_num [collectAverages]

/-- Witness for C2 at a concrete input: local means 10 and 20 give the
persisted global mean 15. -/
theorem c2_global_mean_of_means_witness :
    (aggregator_process [some (7, 10), some (8, 20)]).persisted
      = some ([10, 20], 15) := by
  have h := c2_global_mean_of_means.1 [(7, 10), (8, 20)] (by simp)
  simp only [List.map] at h
  rw [h]
  norm_num

/-- C3: a worker whose observation log is empty at the end of the loop
sends nothing on the channel, attempts no persistence, and only reports
the no-data condition. -/
theorem c3_empty_log_no_emission (id : Nat) (saveOk : Bool) :
    (clientFinalize id [] saveOk).sent = none
    ∧ (clientFinalize id [] saveOk).saveAttempted = none
    ∧ (clientFinalize id [] saveOk).noData = true := by
  refine ⟨rfl, rfl, rfl⟩

/-- C6: the per-worker-means sequence the aggregator persists is exactly
the arrival order of the results; with completion order 3, 1, 4, 2, 5
the persisted sequence keeps that arrival order and is not the
ascending-id order. -/
theorem c6_arrival_order :
    (∀ rs : List (Nat × F),
      Option.map Prod.fst (aggregator_process (rs.map Option.some)).persisted
        = if rs.isEmpty then none else some (rs.map Prod.snd))
    ∧ Option.map Prod.fst (aggregator_process
        [some (3, 59990), some (1, 60000), some (4, 60020),
         some (2, 60010), some (5, 59980)]).persisted
        = some [59990, 60000, 60020, 60010, 59980]
    ∧ Option.map Prod.fst (aggregator_process
        [some (3, 59990), some (1, 60000), some (4, 60020),
         some (2, 60010), some (5, 59980)]).persisted
        ≠ some [60000, 60010, 59990, 60020, 59980] := by
  refine ⟨?_, ?hc, ?hc2⟩
  case hc =>
    rw [aggregator_process_of_ne_nil _ (by simp [collectAverages])]
    norm_num [collectAverages]
  case hc2 =>
    rw [aggregator_process_of_ne_nil _ (by simp [collectAverages])]
    norm_num [collectAverages]
  intro rs
  match rs with
  | [] => rfl
  | r :: tl =>
    have hne : collectAverages ((r :: tl).map Option.some) ≠ [] := by
      rw [collectAverages_map_some]
      simp
    rw [aggregator_process_of_ne_nil _ hne, collectAverages_map_some]
    simp

/-- C10: a receive that yields nothing records no mean while the
remaining iterations still run; the aggregator then finalizes over the
k collected means — persisting their mean when k is at least 1, and
reporting no averages with no persistence when k is 0 — and k = 0 is
reachable even for a positive expected count (five empty receives). -/
theorem c10_closed_channel_iterations :
    (∀ pre post : List (Option (Nat × F)),
      collectAverages (pre ++ none :: post)
        = collectAverages pre ++ collectAverages post)
    ∧ (∀ recvs : List (Option (Nat × F)), collectAverages recvs ≠ [] →
        (aggregator_process recvs).persisted
          = some (collectAverages recvs,
              (collectAverages recvs).sum / ((collectAverages recvs).length : F))
          ∧ (aggregator_process recvs).noAveragesReported = false)
    ∧ (∀ recvs : List (Option (Nat × F)), collectAverages recvs = [] →
        (aggregator_process recvs).persisted = none
          ∧ (aggregator_process recvs).noAveragesReported = true)
    ∧ ((aggregator_process [none, none, none, none, none]).persisted = none
        ∧ (aggregator_process [none, none, none, none, none]).noAveragesReported
            = true) := by
  refine ⟨?_, ?_, ?_, by refine ⟨rfl, rfl⟩⟩
  · intro pre post
    induction pre with
    | nil => simp [collectAverages]
    | cons hd tl ih =>
      match hd with
      | some (a, b) => simp [collectAverages, ih]
      | none => simp [collectAverages, ih]
  · intro recvs h
    match hcoll : collectAverages recvs, h with
    | a :: tl, _ =>
      constructor
      · simp [aggregator_process, hcoll, calculate_average]
      · simp [aggregator_process, hcoll, calculate_average]
  · intro recvs h
    refine ⟨?_, ?_⟩ <;> simp [aggregator_process, h, calculate_average]

/-- Witness for C10 at concrete inputs: an empty middle receive is
skipped while later receives still count, and one collected mean of 42
is persisted as the global mean 42. -/
theorem c10_closed_channel_iterations_witness :
    collectAverages [some (1, 5), none, some (2, 7)] = [5, 7]
    ∧ (aggregator_process [none, some (3, 42)]).persisted = some ([42], 42) := by
  constructor
  · have h := c10_closed_channel_iterations.1 [some (1, 5)] [some (2, 7)]
    simp only [List.cons_append, List.nil_append] at h
    rw [h]
    rfl
  · have h := (c10_closed_channel_iterations.2.1 [none, some (3, 42)]
      (by simp [collectAverages])).1
    rw [h]
    norm_num [collectAverages]

/-- C4 counterexample: on the raw message with JSON body consisting of a
p field holding the number 1 (present but not a string), the decoder
does not return a price or a decode error — it panics on the unwrap of
as_str — so decoding is not total over all inputs. -/
theorem c4_decoder_counterexample :
    process_message (fun _ => none) (some (Json.obj [("p", Json.num 1)]))
      = DecodeOutcome.panicked := rfl

/-- C4 amended: on every raw message whose p field, when present, holds
a string, the decoder is total and classifies failures as claimed —
missing field when p is absent, parse error when the string does not
parse, a price otherwise (plus a JSON syntax error for non-JSON text);
but when p is present holding a non-string value the decoder panics. -/
theorem c4_decoder_classification (pf : String → Option F) (raw : Option Json)
    (hstr : ∀ j p, raw = some j → j.get "p" = some p → ∃ s, p = Json.str s) :
    process_message pf raw ≠ DecodeOutcome.panicked
    ∧ (raw = none →
        process_message pf raw = DecodeOutcome.err DecodeError.jsonSyntax)
    ∧ (∀ j, raw = some j → j.get "p" = none →
        process_message pf raw = DecodeOutcome.err DecodeError.missingField)
    ∧ (∀ j s, raw = some j → j.get "p" = some (Json.str s) → pf s = none →
        process_message pf raw = DecodeOutcome.err DecodeError.parseError)
    ∧ (∀ j s v, raw = some j → j.get "p" = some (Json.str s) → pf s = some v →
        process_message pf raw = DecodeOutcome.ok v) := by
  refine ⟨?_, ?_, ?_, ?_, ?_⟩
  · match raw with
    | none => simp [process_message]
    | some j =>
      match hp : j.get "p" with
      | none => simp [process_message, hp]
      | some p =>
        obtain ⟨s, rfl⟩ := hstr j p rfl hp
        match hf : pf s with
        | none => simp [process_message, hp, Json.asStr, hf]
        | some v => simp [process_message, hp, Json.asStr, hf]
  · intro h
    subst h
    rfl
  · intro j h hp
    subst h
    simp [process_message, hp]
  · intro j s h hp hf
    subst h
    simp [process_message, hp, Json.asStr, hf]
  · intro j s v h hp hf
    subst h
    simp [process_message, hp, Json.asStr, hf]

/-- Witness for the amended C4 at a concrete input: a message whose p
field holds the non-numeric string abc yields the parse error. -/
theorem c4_decoder_classification_witness :
    process_message (fun _ => none) (some (Json.obj [("p", Json.str "abc")]))
      = DecodeOutcome.err DecodeError.parseError := by
  have h := (c4_decoder_classification (fun _ => none)
      (some (Json.obj [("p", Json.str "abc")]))
      (by
        intro j p hj hp
        rw [Option.some.injEq] at hj
        subst hj
        have hp' : some (Json.str "abc") = some p := hp
        rw [Option.some.injEq] at hp'
        exact ⟨"abc", hp'.symm⟩)).2.2.2.1
  exact h (Json.obj [("p", Json.str "abc")]) "abc" rfl rfl rfl

/-- C5 counterexample: with every file absent, the replay reporter stops
early on the first file, yet read_mode still returns Ok of unit to its
caller — not an error, contrary to the claim. -/
theorem c5_replay_counterexample :
    (read_mode (fun _ => none) 5).1.2 = true
    ∧ (read_mode (fun _ => none) 5).2 = Except.ok () := ⟨rfl, rfl⟩

/-- C5 amended: the replay reporter stops at the first file that cannot
be opened or read, attempts no subsequent file, prints everything it
successfully read before the failure, and reports the stoppage only on
stderr while returning Ok of unit to its caller on every input. -/
theorem c5_replay_stops_at_first_failure (fs : String → Option (List LineItem))
    (numClients : Nat) :
    (∀ path rest, fs path = none → readFiles fs (path :: rest) = ([], true))
    ∧ (∀ path items rest, fs path = some items → (readLines items).2 = true →
        readFiles fs (path :: rest)
          = (("Reading file: " ++ path) :: (readLines items).1, true))
    ∧ (∀ pre rest2 : List String,
        (∀ p ∈ pre, ∃ items, fs p = some items ∧ (readLines items).2 = false) →
        readFiles fs (pre ++ rest2)
          = ((readFiles fs pre).1 ++ (readFiles fs rest2).1,
              (readFiles fs rest2).2))
    ∧ (read_mode fs numClients).2 = Except.ok () := by
  refine ⟨?_, ?_, ?_, rfl⟩
  · intro path rest h
    simp [readFiles, h]
  · intro path items rest h hb
    simp [readFiles, h, hb]
  · intro pre rest2 hok
    induction pre with
    | nil => simp [readFiles]
    | cons p tl ih =>
      obtain ⟨items, hitems, hline⟩ := hok p (List.mem_cons_self p tl)
      have ih' := ih (fun q hq => hok q (List.mem_cons_of_mem p hq))
      simp [readFiles, hitems, hline, ih', List.append_assoc]

/-- Witness for the amended C5 at a concrete input: with no files
present the reporter prints nothing for the two-file list and stops on
the first one. -/
theorem c5_replay_stops_at_first_failure_witness :
    readFiles (fun _ => none) ["client_1_data.txt", "global_data.txt"]
      = ([], true) :=
  (c5_replay_stops_at_first_failure (fun _ => none) 5).1
    "client_1_data.txt" ["global_data.txt"] rfl

/-- C7 counterexample: a worker whose loop ends with an empty log does
not attempt to persist at all, so persistence is not attempted
unconditionally on every run that reaches the end of the loop. -/
theorem c7_persist_counterexample :
    (clientFinalize 1 [] true).saveAttempted = none := rfl

/-- C7 amended: a worker that ends its loop with a non-empty log always
attempts to persist exactly its raw observation log and unrounded local
mean to its own file; with an empty log it attempts no persistence; and
a persistence failure changes nothing in the worker's outcome beyond
the stderr log — in particular the sent result is unaffected and no
error is returned. -/
theorem c7_persist_nonempty_only (id : Nat) (prices : List F) (saveOk : Bool) :
    (prices ≠ [] →
      (clientFinalize id prices saveOk).saveAttempted
        = some (clientFileName id, prices, prices.sum / (prices.length : F)))
    ∧ (prices = [] → (clientFinalize id prices saveOk).saveAttempted = none)
    ∧ (clientFinalize id prices saveOk).sent = (clientFinalize id prices true).sent
    ∧ (clientFinalize id prices saveOk).noData
        = (clientFinalize id prices true).noData := by
  refine ⟨?_, ?_, ?_, ?_⟩
  · intro h
    simp [clientFinalize, calculate_average_of_ne_nil prices h]
  · intro h
    subst h
    rfl
  · cases hc : calculate_average prices <;> simp [clientFinalize, hc]
  · cases hc : calculate_average prices <;> simp [clientFinalize, hc]

/-- Witness for the amended C7 at a concrete input: one observation 5
with a failing write still records the attempt to save prices and mean
to the worker file. -/
theorem c7_persist_nonempty_only_witness :
    (clientFinalize 2 [5] false).saveAttempted
      = some ("client_2_data.txt", [5], 5) := by
  have h := (c7_persist_nonempty_only 2 [5] false).1 (by simp)
  rw [h]
  have hname : clientFileName 2 = "client_2_data.txt" := by decide
  rw [hname]
  norm_num

/-- C8: for every mode other than cache and read, main prints the usage
error to stderr, spawns no task, creates no channel, touches no file,
and the process still exits normally with code 0. -/
theorem c8_invalid_mode (fs : String → Option (List LineItem)) (mode : String)
    (numClients : Nat) (h1 : mode ≠ "cache") (h2 : mode ≠ "read") :
    dispatchMode fs mode numClients
      = { action := MainAction.usage, tasksSpawned := 0, channelCreated := false,
          touchesFiles := false, usageErrorPrinted := true, exitCode := 0 } := by
  simp [dispatchMode, h1, h2]

/-- Witness for C8 at a concrete input: the mode string bogus is
rejected with the usage outcome. -/
theorem c8_invalid_mode_witness :
    dispatchMode (fun _ => none) "bogus" 5
      = { action := MainAction.usage, tasksSpawned := 0, channelCreated := false,
          touchesFiles := false, usageErrorPrinted := true, exitCode := 0 } :=
  c8_invalid_mode (fun _ => none) "bogus" 5 (by decide) (by decide)

/-- C9: inside the observation loop, any item that is not a successfully
received text frame — another frame kind, a stream error, or stream end
— immediately breaks the loop with the prices collected so far,
whatever items would have followed; while a text frame whose decode
returns an error is skipped and the loop continues on the rest. -/
theorem c9_loop_abort_and_skip (pf : String → Option F) (acc : List F)
    (rest : List StreamItem) :
    (obsLoopAux pf acc (StreamItem.otherFrame :: rest) = some acc
      ∧ obsLoopAux pf acc (StreamItem.streamError :: rest) = some acc
      ∧ obsLoopAux pf acc (StreamItem.streamClosed :: rest) = some acc)
    ∧ (∀ raw e, process_message pf raw = DecodeOutcome.err e →
        obsLoopAux pf acc (StreamItem.textFrame raw :: rest)
          = obsLoopAux pf acc rest) := by
  refine ⟨⟨rfl, rfl, rfl⟩, ?_⟩
  intro raw e h
  simp [obsLoopAux, h]

/-- Witness for C9 at a concrete input: a text frame with invalid JSON
is skipped and the loop then ends with the empty price list. -/
theorem c9_loop_abort_and_skip_witness :
    obsLoopAux (fun _ => none) [] [StreamItem.textFrame none] = some [] := by
  have h := (c9_loop_abort_and_skip (fun _ => none) [] []).2 none
    DecodeError.jsonSyntax rfl
  rw [h]
  rfl

end MultiClient
